import Mathlib

/-!
Shallow embedding of the modius control-plane core (src/lib.rs, src/util.rs,
src/net/command.rs, src/net/client.rs).

External libp2p collaborators (peer-id / multiaddress parsing, keypair
protobuf encoding, the swarm's dial / register operations) are modelled as
explicit parameters: the repository only consumes their `Result`-typed
interfaces.  Fallible Rust code is embedded as `Except`; a reachable `panic`
(`.expect`) is embedded as `Option` with `none` standing for the panic.
-/

namespace Modius

/-- Opaque validated peer identifier (libp2p `PeerId`). -/
structure PeerId where
  raw : String
deriving Repr, DecidableEq

/-- Opaque validated network multiaddress (libp2p `Multiaddr`). -/
structure Multiaddr where
  raw : String
deriving Repr, DecidableEq

/-- `PeerType` from src/util.rs. -/
inductive PeerType where
  | Bootstrap
  | Discovered
deriving Repr, DecidableEq

/-- `Peer` from src/util.rs; `last_seen` timestamps are modelled as `Nat`. -/
structure Peer where
  id : PeerId
  address : Multiaddr
  last_seen : Option Nat
  name : Option String
  kind : PeerType
deriving Repr, DecidableEq

/-- `Peer::new` from src/util.rs. -/
def Peer.new (kind : PeerType) (id : PeerId) (address : Multiaddr) : Peer :=
  { id := id
    address := address
    kind := kind
    last_seen := none
    name := none }

/-- `Peer::try_new` from src/util.rs, parameterised by the external libp2p
string parsers (`PeerId::from_str`, `Multiaddr::from_str`). -/
def Peer.try_new (parseId : String → Except String PeerId)
    (parseAddr : String → Except String Multiaddr)
    (kind : PeerType) (id : String) (address : String) : Except String Peer := do
  let peer_id ← parseId id
  let multiaddr ← parseAddr address
  return Peer.new kind peer_id multiaddr

/-- The `peers` field of the derived `NodeBuilder` (src/lib.rs): the
builder holds `Option<Vec<Peer>>`. -/
structure NodeBuilder where
  peers : Option (List Peer)
deriving Repr, DecidableEq

/-- `NodeBuilder::with_peer` from src/lib.rs. -/
def NodeBuilder.with_peer (b : NodeBuilder) (peer : Peer) : NodeBuilder :=
  match b.peers with
  | some peers => { b with peers := some (peers ++ [peer]) }
  | none => { b with peers := some [peer] }

/-- `NodeBuilder::try_bootstrap` from src/lib.rs.  The Rust method mutates
`&mut self` and returns `Result<(), _>`; we return the updated builder next
to the result, so that the claim "the peer list is left unchanged on
failure" is expressible. -/
def NodeBuilder.try_bootstrap (parseId : String → Except String PeerId)
    (parseAddr : String → Except String Multiaddr)
    (b : NodeBuilder) (id : String) (addr : String) :
    NodeBuilder × Except String Unit :=
  match Peer.try_new parseId parseAddr PeerType.Bootstrap id addr with
  | Except.ok peer => (b.with_peer peer, Except.ok ())
  | Except.error e => (b, Except.error e)

/-- Observable state of one end of an `async_channel` (`Sender::is_closed` /
`Receiver::is_closed`). -/
structure ChannelHandle where
  is_closed : Bool
deriving Repr, DecidableEq

/-- Observable state of a tokio `JoinHandle` (`is_finished`). -/
structure TaskHandle where
  is_finished : Bool
deriving Repr, DecidableEq

/-- `Node` from src/lib.rs, generic over the external keypair type `K`
(libp2p `Keypair`).  The live-engine handles are modelled by their
observable state only, which is all `Node::active` inspects. -/
structure Node (K : Type) where
  key : K
  peers : List Peer
  name : String
  group : String
  port : Nat
  commands : Option ChannelHandle
  events : Option ChannelHandle
  thread : Option TaskHandle
deriving Repr, DecidableEq

/-- `Node::active` from src/lib.rs, translated clause by clause with the
early returns of the source. -/
def Node.active {K : Type} (n : Node K) : Bool :=
  match n.commands with
  | some commands =>
    if commands.is_closed then false
    else
      match n.events with
      | some events =>
        if events.is_closed then false
        else
          match n.thread with
          | some handle => !handle.is_finished
          | none => false
      | none => false
  | none => false

/-- The external libp2p keypair protobuf codec
(`Keypair::to_protobuf_encoding` / `Keypair::from_protobuf_encoding`).
Both operations are fallible in the Rust interface. -/
structure KeypairCodec (K : Type) where
  to_protobuf_encoding : K → Except String (List Nat)
  from_protobuf_encoding : List Nat → Except String K

/-- `SavedNode` from src/lib.rs. -/
structure SavedNode where
  key : List Nat
  peers : List Peer
  name : String
  group : String
  port : Nat
deriving Repr, DecidableEq

/-- `SavedNode::save` from src/lib.rs.  The source unwraps the encoding with
`.expect("Failed to parse Keypair")`, so an encoding failure is a panic,
embedded as `none`. -/
def SavedNode.save {K : Type} (c : KeypairCodec K) (node : Node K) :
    Option SavedNode :=
  match c.to_protobuf_encoding node.key with
  | Except.ok bytes =>
    some { key := bytes
           peers := node.peers
           name := node.name
           group := node.group
           port := node.port }
  | Except.error _ => none

/-- `SavedNode::hydrate` from src/lib.rs: decoding failures propagate with
`?`; the reconstructed node is dormant (no live-engine handles). -/
def SavedNode.hydrate {K : Type} (c : KeypairCodec K) (saved : SavedNode) :
    Except String (Node K) := do
  let key ← c.from_protobuf_encoding saved.key
  return { key := key
           peers := saved.peers
           name := saved.name
           group := saved.group
           port := saved.port
           commands := none
           events := none
           thread := none }

/-! ### Command protocol (src/net/command.rs) and engine dispatch
(src/net/client.rs).

src/net/command.rs declares `CommandKind { GetAddress }`, while the engine
in src/net/client.rs — cited by the claims — matches exhaustively on
`AddRelay(peer)` and `AddRendezvous(peer)`; we embed the variant set the
engine dispatches on.  The response-channel mechanics (`wrap`, `respond`)
are variant-independent and embedded from src/net/command.rs. -/

/-- A fragment of `serde_json::Value`: the only payload the two dispatched
commands serialize is the unit value `()`, which serde_json turns into
`Value::Null`. -/
inductive Value where
  | null
deriving Repr, DecidableEq

/-- The typed failure an engine dispatch can report: the boxed error sent by
`respond` is either a `DialError` or a rendezvous `RegisterError`, which are
distinct dynamic types.  Both payloads are opaque. -/
inductive CmdError where
  | dial (e : String)
  | register (e : String)
deriving Repr, DecidableEq

/-- One message sent into a command's private response channel
(`Result<Value, Box<dyn Error>>`). -/
inductive Resp where
  | success (v : Value)
  | failure (e : CmdError)
deriving Repr, DecidableEq

/-- `CommandKind` as dispatched by `Client::handle_command`
(src/net/client.rs). -/
inductive CommandKind where
  | AddRelay (peer : Peer)
  | AddRendezvous (peer : Peer)
deriving Repr, DecidableEq

/-- The private response channel created by `CommandKind::wrap`
(src/net/command.rs): `async_channel::bounded(1)`. -/
structure ResponseChannel where
  capacity : Nat
deriving Repr, DecidableEq

/-- `CommandKind::wrap` from src/net/command.rs: pair the command with a
fresh bounded(1) response channel. -/
def CommandKind.wrap (k : CommandKind) : CommandKind × ResponseChannel :=
  (k, { capacity := 1 })

/-- `CommandWrapper::respond` from src/net/command.rs, for a payload type
`T` with serializer `toValue` (`serde_json::to_value`).  Returns the
function's own `Result<(), serde_json::Error>` next to the list of messages
sent into the response channel; a serialization failure propagates with `?`
before anything is sent, and channel-send outcomes are discarded
(`let _ =`). -/
def respond {T : Type} (toValue : T → Except String Value)
    (result : Except CmdError T) : Except String Unit × List Resp :=
  match result with
  | Except.ok val =>
    match toValue val with
    | Except.ok v => (Except.ok (), [Resp.success v])
    | Except.error e => (Except.error e, [])
  | Except.error e => (Except.ok (), [Resp.failure e])

/-- `serde_json::to_value(())`: serializing the unit value always succeeds,
producing `Value::Null`. -/
def unitToValue : Unit → Except String Value := fun _ => Except.ok Value.null

/-- The external swarm operations `Client::handle_command` invokes:
`Swarm::dial` and `rendezvous::client::Behaviour::register`.  `none` is the
`Ok` outcome, `some e` the typed error. -/
structure SwarmModel where
  dial : Multiaddr → Option String
  register : String → PeerId → Option String

/-- A network-affecting operation performed on the locked swarm, recorded so
that "no registration is attempted" is expressible. -/
inductive SwarmAction where
  | dialed (addr : Multiaddr)
  | registered (ns : String) (peer : PeerId)
deriving Repr, DecidableEq

/-- The fixed rendezvous namespace `Namespace::from_static("modius")`. -/
def modiusNamespace : String := "modius"

/-- Lift a dial outcome into the `Result` argument `respond` receives. -/
def dialOutcome (r : Option String) : Except CmdError Unit :=
  match r with
  | none => Except.ok ()
  | some e => Except.error (CmdError.dial e)

/-- Lift a registration outcome into the `Result` argument `respond`
receives. -/
def registerOutcome (r : Option String) : Except CmdError Unit :=
  match r with
  | none => Except.ok ()
  | some e => Except.error (CmdError.register e)

/-- `Client::handle_command` from src/net/client.rs.  `lockOk` is the
outcome of `self.swarm.clone().lock()`: the source guards the whole
dispatch with `if let Ok(mut swarm) = ...` and has no else branch, then
returns `Ok(())`.  Result: the function's own `Result<(), Box<dyn Error>>`
(errors come only from `respond(..)?`), the messages sent into the
command's response channel, and the swarm operations performed. -/
def handle_command (sw : SwarmModel) (lockOk : Bool) (command : CommandKind) :
    Except String Unit × List Resp × List SwarmAction :=
  if lockOk then
    match command with
    | CommandKind.AddRelay peer =>
      let (r, sent) := respond unitToValue (dialOutcome (sw.dial peer.address))
      (r, sent, [SwarmAction.dialed peer.address])
    | CommandKind.AddRendezvous peer =>
      match sw.dial peer.address with
      | none =>
        let (r, sent) :=
          respond unitToValue
            (registerOutcome (sw.register modiusNamespace peer.id))
        (r, sent, [SwarmAction.dialed peer.address,
                   SwarmAction.registered modiusNamespace peer.id])
      | some e =>
        let (r, sent) := respond unitToValue (Except.error (CmdError.dial e))
        (r, sent, [SwarmAction.dialed peer.address])
  else
    (Except.ok (), [], [])

/-- The three-way multiplexed event of `Client::event_loop`
(src/net/client.rs); stream and swarm events carry no data our model
needs. -/
inductive LoopEvent where
  | command (c : CommandKind)
  | swarm
  | stream
deriving Repr, DecidableEq

/-- What one iteration of `Client::event_loop` decides. -/
inductive LoopOutcome where
  | next
  | exitErr (e : String)
deriving Repr, DecidableEq

/-- One iteration of the `loop` in `Client::event_loop`
(src/net/client.rs): a failed select / failed lock (`Err(())`) is skipped
and the loop continues; a handler error returns it out of the loop;
`handle_event` and `handle_stream` always return `Ok(())`. -/
def eventLoopStep (sw : SwarmModel) (lockOk : Bool)
    (event : Except Unit LoopEvent) : LoopOutcome :=
  match event with
  | Except.error _ => LoopOutcome.next
  | Except.ok evt =>
    match evt with
    | LoopEvent.command c =>
      match (handle_command sw lockOk c).1 with
      | Except.ok _ => LoopOutcome.next
      | Except.error e => LoopOutcome.exitErr e
    | LoopEvent.swarm => LoopOutcome.next
    | LoopEvent.stream => LoopOutcome.next

/-- Channel state observable after `Client::main` returns. -/
structure EngineState where
  listenerInstalled : Bool
  commandsClosed : Bool
  eventsClosed : Bool
deriving Repr, DecidableEq

/-- `Client::main` from src/net/client.rs.  Steps of the source, in order:
lock the swarm (`.expect` — a failure panics, embedded as `none`); parse
the listen address and `listen_on` (`?` — a failure returns early, before
any listener is installed and without closing either channel); run
`event_loop` (its exit value is `loopResult`; a panic inside it is
`loopPanic`); lock again (`.expect`); `remove_listener`; close the command
channel; close the event channel; return the loop's result. -/
def Client.main (lockOk1 : Bool) (listen : Except String Unit)
    (loopPanic : Bool) (loopResult : Except String Unit) (lockOk2 : Bool) :
    Option (Except String Unit × EngineState) :=
  if lockOk1 then
    match listen with
    | Except.error e =>
      some (Except.error e,
            { listenerInstalled := false
              commandsClosed := false
              eventsClosed := false })
    | Except.ok _ =>
      if loopPanic then none
      else if lockOk2 then
        some (loopResult,
              { listenerInstalled := false
                commandsClosed := true
                eventsClosed := true })
      else none
  else none

/-! ### Concrete instances used to evaluate the model on closed inputs. -/

/-- A representative external peer-id parser: rejects empty strings. -/
def demoParseId (s : String) : Except String PeerId :=
  if s = "" then Except.error "invalid peer id" else Except.ok { raw := s }

/-- A representative external multiaddress parser: rejects empty strings. -/
def demoParseAddr (s : String) : Except String Multiaddr :=
  if s = "" then Except.error "invalid multiaddr" else Except.ok { raw := s }

/-- A concrete bootstrap peer. -/
def demoPeer : Peer :=
  Peer.new PeerType.Bootstrap { raw := "QmDemo" } { raw := "/ip4/127.0.0.1/tcp/4001" }

/-- A swarm whose dial attempts fail. -/
def demoSwarmDialFail : SwarmModel :=
  { dial := fun _ => some "connection refused"
    register := fun _ _ => none }

/-- A swarm that dials fine but rejects registrations. -/
def demoSwarmRegFail : SwarmModel :=
  { dial := fun _ => none
    register := fun _ _ => some "registration rejected" }

/-- A concrete keypair codec over `List Nat` keys: encoding prepends a tag
byte, decoding strips it and rejects byte strings that lack it. -/
def demoCodec : KeypairCodec (List Nat) :=
  { to_protobuf_encoding := fun k => Except.ok (0 :: k)
    from_protobuf_encoding := fun b =>
      match b with
      | 0 :: r => Except.ok r
      | _ => Except.error "malformed keypair bytes" }

/-- A codec over `Bool` keys where the `false` key fails to encode
(the Rust interface allows `to_protobuf_encoding` to return `Err`). -/
def demoFailCodec : KeypairCodec Bool :=
  { to_protobuf_encoding := fun k =>
      if k then Except.ok [1] else Except.error "unsupported key type"
    from_protobuf_encoding := fun _ => Except.ok true }

/-- A concrete dormant node over the `demoCodec` key type. -/
def demoNode : Node (List Nat) :=
  { key := [1, 2]
    peers := [demoPeer]
    name := "demo.modius"
    group := "modius.generic"
    port := 8000
    commands := none
    events := none
    thread := none }

/-- A concrete node whose key `demoFailCodec` cannot encode. -/
def demoFailNode : Node Bool :=
  { key := false
    peers := []
    name := "n"
    group := "g"
    port := 1
    commands := none
    events := none
    thread := none }

/-- `demoCodec` satisfies the round-trip contract of the external keypair
codec: successfully encoded bytes decode back to a key that re-encodes to
the same bytes. -/
theorem demoCodec_roundtrip : ∀ (k : List Nat) (b : List Nat),
    demoCodec.to_protobuf_encoding k = Except.ok b →
    ∃ k2, demoCodec.from_protobuf_encoding b = Except.ok k2 ∧
      demoCodec.to_protobuf_encoding k2 = Except.ok b := by
  intro k b h
  simp only [demoCodec] at h ⊢
  cases h
  exact ⟨k, rfl, rfl⟩

/-! ### Claim theorems. -/

/-- C3: `Node::active` returns true iff the command sender is present and
open, the event receiver is present and open, and the background task
handle is present and not finished; any absent, closed or finished
component yields false. -/
theorem node_active_iff : ∀ (K : Type) (n : Node K),
    n.active = true ↔
      ((∃ c, n.commands = some c ∧ c.is_closed = false) ∧
       (∃ ev, n.events = some ev ∧ ev.is_closed = false) ∧
       (∃ t, n.thread = some t ∧ t.is_finished = false)) := by
  intro K n
  cases hc : n.commands with
  | none => simp [Node.active, hc]
  | some c =>
    cases he : n.events with
    | none =>
      cases hb : c.is_closed <;> simp [Node.active, hc, he, hb]
    | some ev =>
      cases ht : n.thread with
      | none =>
        cases hb : c.is_closed <;> cases hb2 : ev.is_closed <;>
          simp [Node.active, hc, he, ht, hb, hb2]
      | some t =>
        cases hb : c.is_closed <;> cases hb2 : ev.is_closed <;>
          cases hb3 : t.is_finished <;>
          simp [Node.active, hc, he, ht, hb, hb2, hb3]

/-- C10: every `Peer::new` result has `last_seen = none` and `name = none`,
with `id`, `address` and `kind` taken from the caller; every successful
`Peer::try_new` result likewise, with `id` and `address` coming from the
two parsers applied to the caller's strings. -/
theorem peer_new_defaults :
    (∀ kind id address,
       (Peer.new kind id address).last_seen = none ∧
       (Peer.new kind id address).name = none ∧
       (Peer.new kind id address).id = id ∧
       (Peer.new kind id address).address = address ∧
       (Peer.new kind id address).kind = kind) ∧
    (∀ parseId parseAddr kind i a p,
       Peer.try_new parseId parseAddr kind i a = Except.ok p →
       p.last_seen = none ∧ p.name = none ∧
       parseId i = Except.ok p.id ∧ parseAddr a = Except.ok p.address ∧
       p.kind = kind) := by
  constructor
  · intro kind id address
    exact ⟨rfl, rfl, rfl, rfl, rfl⟩
  · intro parseId parseAddr kind i a p h
    simp only [Peer.try_new, bind, Except.bind] at h
    rcases hid : parseId i with e | pid <;> rw [hid] at h
    · cases h
    · rcases haddr : parseAddr a with e | maddr <;> rw [haddr] at h
      · cases h
      · simp only [pure, Except.pure, Except.ok.injEq] at h
        subst h
        exact ⟨rfl, rfl, rfl, rfl, rfl⟩

/-- Closed instance of C10's `try_new` clause at the demo parsers. -/
theorem peer_new_defaults_witness :
    Peer.try_new demoParseId demoParseAddr PeerType.Bootstrap "QmDemo"
      "/ip4/127.0.0.1/tcp/4001" = Except.ok demoPeer ∧
    (demoPeer.last_seen = none ∧ demoPeer.name = none ∧
     demoParseId "QmDemo" = Except.ok demoPeer.id ∧
     demoParseAddr "/ip4/127.0.0.1/tcp/4001" = Except.ok demoPeer.address ∧
     demoPeer.kind = PeerType.Bootstrap) := by
  refine ⟨rfl, ?_⟩
  exact peer_new_defaults.2 demoParseId demoParseAddr PeerType.Bootstrap
    "QmDemo" "/ip4/127.0.0.1/tcp/4001" demoPeer rfl

/-- C7: `NodeBuilder::try_bootstrap` fails with the parse error when the
identifier string or the address string is malformed (a parser rejects it),
and the builder — in particular its peer list — is left unchanged. -/
theorem try_bootstrap_parse_error_no_mutation :
    ∀ parseId parseAddr (b : NodeBuilder) (id addr : String),
      (∀ e, parseId id = Except.error e →
        NodeBuilder.try_bootstrap parseId parseAddr b id addr
          = (b, Except.error e)) ∧
      (∀ pid e, parseId id = Except.ok pid → parseAddr addr = Except.error e →
        NodeBuilder.try_bootstrap parseId parseAddr b id addr
          = (b, Except.error e)) := by
  intro parseId parseAddr b id addr
  constructor
  · intro e he
    simp [NodeBuilder.try_bootstrap, Peer.try_new, he, bind, Except.bind]
  · intro pid e hid haddr
    simp [NodeBuilder.try_bootstrap, Peer.try_new, hid, haddr, bind,
      Except.bind]

/-- Closed instance of C7: the demo parsers reject the empty identifier and
the empty address, and the builder keeps its (empty) peer list. -/
theorem try_bootstrap_parse_error_no_mutation_witness :
    demoParseId "" = Except.error "invalid peer id" ∧
    NodeBuilder.try_bootstrap demoParseId demoParseAddr { peers := none } ""
      "/ip4/127.0.0.1/tcp/4001"
      = ({ peers := none }, Except.error "invalid peer id") ∧
    demoParseId "QmDemo" = Except.ok { raw := "QmDemo" } ∧
    demoParseAddr "" = Except.error "invalid multiaddr" ∧
    NodeBuilder.try_bootstrap demoParseId demoParseAddr { peers := none }
      "QmDemo" ""
      = ({ peers := none }, Except.error "invalid multiaddr") := by
  refine ⟨rfl, ?_, rfl, rfl, ?_⟩
  · exact (try_bootstrap_parse_error_no_mutation demoParseId demoParseAddr
      { peers := none } "" "/ip4/127.0.0.1/tcp/4001").1 "invalid peer id" rfl
  · exact (try_bootstrap_parse_error_no_mutation demoParseId demoParseAddr
      { peers := none } "QmDemo" "").2 { raw := "QmDemo" }
      "invalid multiaddr" rfl rfl

/-- C9: when acquiring the swarm lock fails, `handle_command` returns
`Ok(())`, sends nothing into the command's response channel, performs no
swarm operation, and the event loop proceeds to its next iteration. -/
theorem lock_failure_drops_command :
    ∀ (sw : SwarmModel) (cmd : CommandKind),
      handle_command sw false cmd = (Except.ok (), [], []) ∧
      eventLoopStep sw false (Except.ok (LoopEvent.command cmd))
        = LoopOutcome.next := by
  intro sw cmd
  constructor
  · rfl
  · rfl

/-- C4: for every dispatched command, at most one message is ever sent into
the envelope's private response channel, and `CommandKind::wrap` creates
that channel with capacity 1. -/
theorem single_response_capacity_one :
    (∀ (sw : SwarmModel) (lockOk : Bool) (cmd : CommandKind),
       (handle_command sw lockOk cmd).2.1.length ≤ 1) ∧
    (∀ k : CommandKind, (CommandKind.wrap k).2.capacity = 1) := by
  constructor
  · intro sw lockOk cmd
    cases lockOk with
    | false => simp [handle_command]
    | true =>
      cases cmd with
      | AddRelay peer =>
        cases h : sw.dial peer.address <;>
          simp [handle_command, respond, unitToValue, dialOutcome, h]
      | AddRendezvous peer =>
        cases h : sw.dial peer.address with
        | none =>
          cases h2 : sw.register modiusNamespace peer.id <;>
            simp [handle_command, respond, unitToValue, registerOutcome, h, h2]
        | some e =>
          simp [handle_command, respond, unitToValue, h]
  · intro k
    rfl

/-- C1: dispatching `AddRendezvous(peer)`: when the dial of `peer.address`
fails, the single response is exactly the dial error and no registration is
attempted (the only swarm operation is the dial); when the dial succeeds,
the response is the outcome of the registration attempt — success or its
typed error — and the successful dial outcome is discarded. -/
theorem add_rendezvous_dispatch :
    ∀ (sw : SwarmModel) (peer : Peer),
      (∀ e, sw.dial peer.address = some e →
        handle_command sw true (CommandKind.AddRendezvous peer)
          = (Except.ok (), [Resp.failure (CmdError.dial e)],
             [SwarmAction.dialed peer.address])) ∧
      (sw.dial peer.address = none →
        handle_command sw true (CommandKind.AddRendezvous peer)
          = (Except.ok (),
             [match sw.register modiusNamespace peer.id with
              | none => Resp.success Value.null
              | some e => Resp.failure (CmdError.register e)],
             [SwarmAction.dialed peer.address,
              SwarmAction.registered modiusNamespace peer.id])) := by
  intro sw peer
  constructor
  · intro e he
    simp [handle_command, respond, unitToValue, he]
  · intro hd
    cases hr : sw.register modiusNamespace peer.id <;>
      simp [handle_command, respond, unitToValue, registerOutcome, hd, hr]

/-- Closed instances of C1: a failing dial yields exactly the dial error
with no registration attempted; a successful dial yields the registration
error, not the dial outcome. -/
theorem add_rendezvous_dispatch_witness :
    demoSwarmDialFail.dial demoPeer.address = some "connection refused" ∧
    handle_command demoSwarmDialFail true (CommandKind.AddRendezvous demoPeer)
      = (Except.ok (),
         [Resp.failure (CmdError.dial "connection refused")],
         [SwarmAction.dialed demoPeer.address]) ∧
    demoSwarmRegFail.dial demoPeer.address = none ∧
    handle_command demoSwarmRegFail true (CommandKind.AddRendezvous demoPeer)
      = (Except.ok (),
         [Resp.failure (CmdError.register "registration rejected")],
         [SwarmAction.dialed demoPeer.address,
          SwarmAction.registered modiusNamespace demoPeer.id]) := by
  refine ⟨rfl, ?_, rfl, ?_⟩
  · exact (add_rendezvous_dispatch demoSwarmDialFail demoPeer).1
      "connection refused" rfl
  · exact (add_rendezvous_dispatch demoSwarmRegFail demoPeer).2 rfl

/-- C8: a dial failure (for `AddRelay` or `AddRendezvous`) or a
registration failure is reported into the command's response slot as a
typed failure, `handle_command` returns `Ok(())`, and the event loop
proceeds to its next iteration rather than exiting. -/
theorem command_failure_keeps_loop_running :
    ∀ (sw : SwarmModel) (peer : Peer),
      (∀ e, sw.dial peer.address = some e →
        handle_command sw true (CommandKind.AddRelay peer)
          = (Except.ok (), [Resp.failure (CmdError.dial e)],
             [SwarmAction.dialed peer.address]) ∧
        eventLoopStep sw true
          (Except.ok (LoopEvent.command (CommandKind.AddRelay peer)))
          = LoopOutcome.next) ∧
      (∀ e, sw.dial peer.address = some e →
        handle_command sw true (CommandKind.AddRendezvous peer)
          = (Except.ok (), [Resp.failure (CmdError.dial e)],
             [SwarmAction.dialed peer.address]) ∧
        eventLoopStep sw true
          (Except.ok (LoopEvent.command (CommandKind.AddRendezvous peer)))
          = LoopOutcome.next) ∧
      (∀ e, sw.dial peer.address = none →
        sw.register modiusNamespace peer.id = some e →
        handle_command sw true (CommandKind.AddRendezvous peer)
          = (Except.ok (), [Resp.failure (CmdError.register e)],
             [SwarmAction.dialed peer.address,
              SwarmAction.registered modiusNamespace peer.id]) ∧
        eventLoopStep sw true
          (Except.ok (LoopEvent.command (CommandKind.AddRendezvous peer)))
          = LoopOutcome.next) := by
  intro sw peer
  refine ⟨?_, ?_, ?_⟩
  · intro e he
    constructor
    · simp [handle_command, respond, unitToValue, dialOutcome, he]
    · simp [eventLoopStep, handle_command, respond, unitToValue, dialOutcome,
        he]
  · intro e he
    constructor
    · simp [handle_command, respond, unitToValue, he]
    · simp [eventLoopStep, handle_command, respond, unitToValue, he]
  · intro e hd hr
    constructor
    · simp [handle_command, respond, unitToValue, registerOutcome, hd, hr]
    · simp [eventLoopStep, handle_command, respond, unitToValue,
        registerOutcome, hd, hr]

/-- Closed instances of C8 at the demo swarms: dial failure on both command
kinds and registration failure all leave the loop running. -/
theorem command_failure_keeps_loop_running_witness :
    demoSwarmDialFail.dial demoPeer.address = some "connection refused" ∧
    eventLoopStep demoSwarmDialFail true
      (Except.ok (LoopEvent.command (CommandKind.AddRelay demoPeer)))
      = LoopOutcome.next ∧
    eventLoopStep demoSwarmDialFail true
      (Except.ok (LoopEvent.command (CommandKind.AddRendezvous demoPeer)))
      = LoopOutcome.next ∧
    demoSwarmRegFail.register modiusNamespace demoPeer.id
      = some "registration rejected" ∧
    eventLoopStep demoSwarmRegFail true
      (Except.ok (LoopEvent.command (CommandKind.AddRendezvous demoPeer)))
      = LoopOutcome.next := by
  refine ⟨rfl, ?_, ?_, rfl, ?_⟩
  · exact ((command_failure_keeps_loop_running demoSwarmDialFail demoPeer).1
      "connection refused" rfl).2
  · exact ((command_failure_keeps_loop_running demoSwarmDialFail
      demoPeer).2.1 "connection refused" rfl).2
  · exact ((command_failure_keeps_loop_running demoSwarmRegFail
      demoPeer).2.2 "registration rejected" rfl rfl).2

/-- C5: whenever `Client::main` returns after the event loop has run (the
listen step succeeded), the listener has been removed and both the command
channel and the event channel are closed, whatever value — success or
error — the loop exited with. -/
theorem main_shutdown_closes_channels :
    ∀ (lockOk1 loopPanic : Bool) (loopResult : Except String Unit)
      (lockOk2 : Bool) (r : Except String Unit) (s : EngineState),
      Client.main lockOk1 (Except.ok ()) loopPanic loopResult lockOk2
        = some (r, s) →
      s.listenerInstalled = false ∧ s.commandsClosed = true ∧
      s.eventsClosed = true ∧ r = loopResult := by
  intro lockOk1 loopPanic loopResult lockOk2 r s h
  cases lockOk1 with
  | false => simp [Client.main] at h
  | true =>
    cases loopPanic with
    | true => simp [Client.main] at h
    | false =>
      cases lockOk2 with
      | false => simp [Client.main] at h
      | true =>
        simp only [Client.main, if_true, Bool.false_eq_true, if_false,
          Option.some.injEq, Prod.mk.injEq] at h
        exact ⟨h.2 ▸ rfl, h.2 ▸ rfl, h.2 ▸ rfl, h.1.symm⟩

/-- Closed instance of C5: the loop exits with a handler error; both
channels are closed and the listener is removed. -/
theorem main_shutdown_closes_channels_witness :
    Client.main true (Except.ok ()) false (Except.error "handler failed")
      true
      = some (Except.error "handler failed",
              { listenerInstalled := false
                commandsClosed := true
                eventsClosed := true }) ∧
    ({ listenerInstalled := false, commandsClosed := true,
       eventsClosed := true : EngineState }.listenerInstalled = false ∧
     ({ listenerInstalled := false, commandsClosed := true,
        eventsClosed := true : EngineState }.commandsClosed = true) ∧
     ({ listenerInstalled := false, commandsClosed := true,
        eventsClosed := true : EngineState }.eventsClosed = true)) := by
  refine ⟨rfl, ?_⟩
  have h := main_shutdown_closes_channels true false
    (Except.error "handler failed") true (Except.error "handler failed")
    { listenerInstalled := false, commandsClosed := true,
      eventsClosed := true } rfl
  exact ⟨h.1, h.2.1, h.2.2.1⟩

/-- C2: assuming the external keypair codec's round-trip contract (bytes it
produced decode to a key that re-encodes to the same bytes), every node
whose keypair encodes successfully satisfies: `save` succeeds and snapshots
the scalar fields and peers, and `hydrate` of that snapshot succeeds,
yielding a dormant node with identical name, group, port and peer list
whose keypair re-encodes to the persisted bytes. -/
theorem saved_node_roundtrip :
    ∀ (K : Type) (c : KeypairCodec K),
      (∀ k b, c.to_protobuf_encoding k = Except.ok b →
        ∃ k2, c.from_protobuf_encoding b = Except.ok k2 ∧
          c.to_protobuf_encoding k2 = Except.ok b) →
      ∀ (n : Node K) (bytes : List Nat),
        c.to_protobuf_encoding n.key = Except.ok bytes →
        ∃ k2,
          SavedNode.save c n
            = some { key := bytes, peers := n.peers, name := n.name,
                     group := n.group, port := n.port } ∧
          c.from_protobuf_encoding bytes = Except.ok k2 ∧
          c.to_protobuf_encoding k2 = Except.ok bytes ∧
          SavedNode.hydrate c
            { key := bytes, peers := n.peers, name := n.name,
              group := n.group, port := n.port }
            = Except.ok { key := k2, peers := n.peers, name := n.name,
                          group := n.group, port := n.port,
                          commands := none, events := none,
                          thread := none } := by
  intro K c hrt n bytes henc
  obtain ⟨k2, hdec, hreenc⟩ := hrt n.key bytes henc
  refine ⟨k2, ?_, hdec, hreenc, ?_⟩
  · simp [SavedNode.save, henc]
  · simp [SavedNode.hydrate, hdec, bind, Except.bind, pure, Except.pure]

/-- Closed instance of C2 at `demoCodec` and `demoNode`: persistence
round-trips and the rehydrated key re-encodes to the persisted bytes. -/
theorem saved_node_roundtrip_witness :
    SavedNode.save demoCodec demoNode
      = some { key := [0, 1, 2], peers := [demoPeer], name := "demo.modius",
               group := "modius.generic", port := 8000 } ∧
    SavedNode.hydrate demoCodec
      { key := [0, 1, 2], peers := [demoPeer], name := "demo.modius",
        group := "modius.generic", port := 8000 }
      = Except.ok demoNode := by
  obtain ⟨k2, hsave, hdec, hreenc, hhyd⟩ :=
    saved_node_roundtrip (List Nat) demoCodec demoCodec_roundtrip demoNode
      [0, 1, 2] rfl
  have hk : k2 = [1, 2] := by
    have : Except.ok (ε := String) [1, 2] = Except.ok k2 := hdec
    cases this
    rfl
  subst hk
  exact ⟨hsave, hhyd⟩

/-- C6 as stated is violated by `SavedNode::save`: the source unwraps
`to_protobuf_encoding` with `.expect("Failed to parse Keypair")`, so a
keypair whose encoding fails makes `persist` panic (`none` in the
embedding) instead of returning an error. -/
theorem persist_panics_on_encode_failure :
    demoFailCodec.to_protobuf_encoding demoFailNode.key
      = Except.error "unsupported key type" ∧
    SavedNode.save demoFailCodec demoFailNode = none := by
  exact ⟨rfl, rfl⟩

/-- C6 amended: `hydrate` reports malformed stored keypair bytes as the
returned decoding error and never panics; `persist` returns a snapshot
whenever the keypair encodes successfully, but panics when the encoding
itself fails. -/
theorem persist_hydrate_error_reporting :
    ∀ (K : Type) (c : KeypairCodec K),
      (∀ (saved : SavedNode) (e : String),
        c.from_protobuf_encoding saved.key = Except.error e →
        SavedNode.hydrate c saved = Except.error e) ∧
      (∀ (n : Node K) (bytes : List Nat),
        c.to_protobuf_encoding n.key = Except.ok bytes →
        SavedNode.save c n
          = some { key := bytes, peers := n.peers, name := n.name,
                   group := n.group, port := n.port }) ∧
      (∀ (n : Node K) (e : String),
        c.to_protobuf_encoding n.key = Except.error e →
        SavedNode.save c n = none) := by
  intro K c
  refine ⟨?_, ?_, ?_⟩
  · intro saved e h
    simp [SavedNode.hydrate, h, bind, Except.bind]
  · intro n bytes h
    simp [SavedNode.save, h]
  · intro n e h
    simp [SavedNode.save, h]

/-- Closed instances of the amended C6: `hydrate` on malformed bytes
returns the decoding error; `save` succeeds on an encodable key and panics
on a non-encodable one. -/
theorem persist_hydrate_error_reporting_witness :
    demoCodec.from_protobuf_encoding [7]
      = Except.error "malformed keypair bytes" ∧
    SavedNode.hydrate demoCodec
      { key := [7], peers := [], name := "n", group := "g", port := 1 }
      = Except.error "malformed keypair bytes" ∧
    SavedNode.save demoCodec demoNode
      = some { key := [0, 1, 2], peers := [demoPeer], name := "demo.modius",
               group := "modius.generic", port := 8000 } ∧
    SavedNode.save demoFailCodec demoFailNode = none := by
  refine ⟨rfl, ?_, ?_, ?_⟩
  · exact (persist_hydrate_error_reporting (List Nat) demoCodec).1
      { key := [7], peers := [], name := "n", group := "g", port := 1 }
      "malformed keypair bytes" rfl
  · exact (persist_hydrate_error_reporting (List Nat) demoCodec).2.1
      demoNode [0, 1, 2] rfl
  · exact (persist_hydrate_error_reporting Bool demoFailCodec).2.2
      demoFailNode "unsupported key type" rfl

end Modius
